import Mathlib

/-!
# Offline Voice Assistant — verification of the session / auth / scheduler core

Shallow embedding of the Python sources of the Offline-Voice-Assistant
repository.  Pure functions are translated to Lean functions; module-level
mutable state becomes explicit state records passed and returned; external
collaborators (the `hashlib` SHA-256 digest, the `python_speech_features`
MFCC extractor, the microphone) are parameters of the embedding, exactly as
the spec declares them out of scope.  Machine floats in the source carry
exact decimal constants and comparisons only, so they are embedded as `ℚ`.
-/

namespace VoiceAssistant

/-- Splitting a character list on whitespace runs, dropping empty pieces;
`acc` holds the (reversed) characters of the token being read. -/
def splitWsAux : List Char → List Char → List (List Char)
  | [], acc => if acc = [] then [] else [acc.reverse]
  | c :: rest, acc =>
    if c.isWhitespace then
      if acc = [] then splitWsAux rest []
      else acc.reverse :: splitWsAux rest []
    else splitWsAux rest (c :: acc)

/-- Python `str.split()` with no argument: split on whitespace runs,
dropping empty pieces.  Used by `verify_pin` and the quality filter. -/
def pySplit (s : String) : List String :=
  (splitWsAux s.toList []).map String.mk

/-- Python `str.strip()`: drop leading and trailing whitespace. -/
def pyStrip (s : String) : String :=
  String.mk
    (((s.toList.dropWhile Char.isWhitespace).reverse.dropWhile
        Char.isWhitespace).reverse)

/-- Python `str.lower()` (the inputs at hand are Devanagari, digits and
ASCII letters, for which ASCII lowercasing is exact). -/
def pyLower (s : String) : String :=
  String.mk (s.toList.map Char.toLower)

/-- The contiguous Unicode code-point ranges on which CPython's
`str.isdigit()` is true for a single character: code points of
Numeric_Type Decimal or Digit (ASCII digits, superscripts, and the
decimal digits of the non-Latin scripts — Devanagari `\u0966`–`\u096F`
among them). -/
def pyDigitRanges : List (Nat × Nat) :=
  [(48, 57), (178, 179), (185, 185), (1632, 1641), (1776, 1785),
   (1984, 1993), (2406, 2415), (2534, 2543), (2662, 2671), (2790, 2799),
   (2918, 2927), (3046, 3055), (3174, 3183), (3302, 3311), (3430, 3439),
   (3558, 3567), (3664, 3673), (3792, 3801), (3872, 3881), (4160, 4169),
   (4240, 4249), (4969, 4977), (6112, 6121), (6160, 6169), (6470, 6479),
   (6608, 6618), (6784, 6793), (6800, 6809), (6992, 7001), (7088, 7097),
   (7232, 7241), (7248, 7257), (8304, 8304), (8308, 8313), (8320, 8329),
   (9312, 9320), (9332, 9340), (9352, 9360), (9450, 9450), (9461, 9469),
   (9471, 9471), (10102, 10110), (10112, 10120), (10122, 10130),
   (42528, 42537), (43216, 43225), (43264, 43273), (43472, 43481),
   (43504, 43513), (43600, 43609), (44016, 44025), (65296, 65305),
   (66720, 66729), (68160, 68163), (68912, 68921), (69216, 69224),
   (69714, 69722), (69734, 69743), (69872, 69881), (69942, 69951),
   (70096, 70105), (70384, 70393), (70736, 70745), (70864, 70873),
   (71248, 71257), (71360, 71369), (71472, 71481), (71904, 71913),
   (72016, 72025), (72784, 72793), (73040, 73049), (73120, 73129),
   (92768, 92777), (92864, 92873), (93008, 93017), (120782, 120831),
   (123200, 123209), (123632, 123641), (125264, 125273), (127232, 127242),
   (130032, 130041)]

/-- Whether CPython's `str.isdigit()` counts `c` as a digit. -/
def isPyDigitChar (c : Char) : Bool :=
  pyDigitRanges.any (fun p => decide (p.1 ≤ c.toNat ∧ c.toNat ≤ p.2))

/-- Python `str.isdigit()`: true iff the string is non-empty and every
character has Unicode Numeric_Type Decimal or Digit. -/
def pyIsDigit (s : String) : Bool :=
  s ≠ "" && s.toList.all isPyDigitChar

/-- Whether `pat` is an initial segment of `l`. -/
def startsWithChars : List Char → List Char → Bool
  | [], _ => true
  | _ :: _, [] => false
  | a :: pat, b :: l => a = b && startsWithChars pat l

/-- Whether `pat` occurs as a contiguous segment of `l`. -/
def occursInChars (pat : List Char) : List Char → Bool
  | [] => startsWithChars pat []
  | b :: l => startsWithChars pat (b :: l) || occursInChars pat l

/-- Python `needle in haystack` for strings: substring containment. -/
def pyContains (haystack needle : String) : Bool :=
  occursInChars needle.toList haystack.toList

/-! ## utils/constants.py -/

/-- `WAKE_WORD` from utils/constants.py. -/
def WAKE_WORD : String := "नमस्ते"

/-- `EXIT_WORD` from utils/constants.py. -/
def EXIT_WORD : String := "धन्यवाद"

/-- `SAMPLE_RATE` from utils/constants.py. -/
def SAMPLE_RATE : ℕ := 16000

/-- `HINDI_PIN_WORDS` from utils/constants.py: digit words of two language
registers (Devanagari and Latin) mapped to their numeric value. -/
def HINDI_PIN_WORDS : List (String × ℕ) :=
  [("शून्य", 0), ("zero", 0),
   ("एक", 1), ("one", 1),
   ("दो", 2), ("two", 2),
   ("तीन", 3), ("three", 3),
   ("चार", 4), ("four", 4),
   ("पांच", 5), ("पाँच", 5), ("five", 5),
   ("छह", 6), ("six", 6),
   ("सात", 7), ("seven", 7),
   ("आठ", 8), ("eight", 8),
   ("नौ", 9), ("nine", 9)]

/-- `PIN_PROMPT_TIMEOUT` from utils/constants.py (seconds). -/
def PIN_PROMPT_TIMEOUT : ℚ := 15

/-- `VOICE_AUTH_THRESHOLD` from utils/constants.py (0.60). -/
def VOICE_AUTH_THRESHOLD : ℚ := 60 / 100

/-- `ASR_CONFIDENCE_THRESHOLD` from utils/constants.py (0.65). -/
def ASR_CONFIDENCE_THRESHOLD : ℚ := 65 / 100

/-- `ASR_MIN_WORD_LENGTH` from utils/constants.py. -/
def ASR_MIN_WORD_LENGTH : ℕ := 3

/-- `AUTH_PIN_HASH = sha256(_RAW_PIN).hexdigest()` with `_RAW_PIN = "1234"`
(utils/constants.py).  The SHA-256 digest itself is the external `hashlib`
collaborator, so the embedding is parametric in the digest function `h`. -/
def AUTH_PIN_HASH (h : String → String) : String := h "1234"

/-! ## utils/auth/pin_auth.py -/

/-- The digit contributed by one token of the spoken PIN text: a vocabulary
hit contributes its digit, a literal numeral token contributes its digits,
anything else contributes nothing (the token is skipped). -/
def tokenDigits (tok : String) : String :=
  match (HINDI_PIN_WORDS.lookup tok) with
  | some n => toString n
  | none => if pyIsDigit tok then tok else ""

/-- The digit string accumulated by the loop of `verify_pin`
(utils/auth/pin_auth.py lines 31–39): strip and lowercase the text,
tokenize, map each token through the vocabulary or accept literal numerals
digit by digit, skip everything else, concatenate. -/
def pinDigits (spoken_text : String) : String :=
  String.join ((pySplit (pyLower (pyStrip spoken_text))).map tokenDigits)

/-- `verify_pin` (utils/auth/pin_auth.py lines 20–44; the copy in
utils/auth.py lines 45–67 is token-for-token the same logic).  `h` is the
external SHA-256 hex-digest collaborator and `storedHash` the configured
`AUTH_PIN_HASH`. -/
def verify_pin (h : String → String) (storedHash : String)
    (spoken_text : String) : Bool :=
  let digits := pinDigits spoken_text
  if digits = "" then false
  else decide (h digits = storedHash)

/-! ## utils/auth/voice_auth.py -/

/-- `int(SAMPLE_RATE * 0.5)`: the minimum number of samples
`verify_voice_from_audio` demands before attempting MFCC extraction. -/
def MIN_VOICE_SAMPLES : ℕ := 8000

/-- Dot product of two feature vectors (`np.dot` on equal-length 1-D
arrays; profile and sample both have 13 MFCC coefficients). -/
def dotQ (a b : List ℚ) : ℚ :=
  (List.zipWith (fun x y => x * y) a b).sum

/-- The comparison `_cosine_similarity(a, b) >= t` made exact over `ℚ`.
`_cosine_similarity` (voice_auth.py lines 103–108) returns `0.0` when
either norm is zero and `dot(a,b) / (‖a‖ * ‖b‖)` otherwise; since the
norms are square roots, the threshold comparison is decided by comparing
squares with the appropriate sign analysis. -/
def cosSimGe (a b : List ℚ) (t : ℚ) : Bool :=
  let naSq := dotQ a a
  let nbSq := dotQ b b
  if naSq = 0 ∨ nbSq = 0 then decide ((0 : ℚ) ≥ t)
  else
    let d := dotQ a b
    if t ≤ 0 then
      if 0 ≤ d then true else decide (d ^ 2 ≤ t ^ 2 * (naSq * nbSq))
    else decide (0 ≤ d ∧ t ^ 2 * (naSq * nbSq) ≤ d ^ 2)

/-- The external collaborators and on-disk state that the voice check
reads: whether `python_speech_features` imported (`MFCC_AVAILABLE`), the
enrolled profile `load_voice_profile()` finds on disk, the feature
extractor (`np.mean(compute_mfcc(...))` applied to the `_trim_silence`d
audio — the MFCC library is the external collaborator, so the composite
is a parameter), and the samples a fresh `_record_audio` capture would
return. -/
structure VoiceEnv where
  mfccAvailable : Bool
  profile : Option (List ℚ)
  extract : List ℤ → List ℚ
  freshRecording : List ℤ

/-- `_extract_mfcc` (voice_auth.py lines 93–100): `None` when the MFCC
library is missing, otherwise the mean MFCC vector of the audio. -/
def extractMfcc (env : VoiceEnv) (audio : List ℤ) : Option (List ℚ) :=
  if env.mfccAvailable then some (env.extract audio) else none

/-- `verify_voice` (voice_auth.py lines 171–198): records a fresh sample
and compares it with the enrolled profile; fails open when the MFCC
library or the profile is missing. -/
def verify_voice (env : VoiceEnv) : Bool :=
  if env.mfccAvailable = false then true
  else
    match env.profile with
    | none => true
    | some profile =>
      match extractMfcc env env.freshRecording with
      | none => false
      | some sample => cosSimGe profile sample VOICE_AUTH_THRESHOLD

/-- `verify_voice_from_audio` (voice_auth.py lines 201–238): compares a
pre-recorded audio buffer with the enrolled profile; fails open when the
MFCC library is missing, no profile exists, or the audio is shorter than
`MIN_VOICE_SAMPLES`. -/
def verify_voice_from_audio (env : VoiceEnv) (audio : List ℤ) : Bool :=
  if env.mfccAvailable = false then true
  else
    match env.profile with
    | none => true
    | some profile =>
      if audio.length < MIN_VOICE_SAMPLES then true
      else
        match extractMfcc env audio with
        | none => false
        | some sample => cosSimGe profile sample VOICE_AUTH_THRESHOLD

/-! ## utils/auth/__init__.py and utils/auth.py — the auth gate -/

/-- `AuthResult`: the dict returned by `authenticate_user`. -/
structure AuthResult where
  pin_ok : Bool
  voice_ok : Bool
  authorized : Bool
  reason : String
deriving DecidableEq, Repr

/-- Wrong-PIN reason string (identical in both variants). -/
def WRONG_PIN_MSG : String := "❌ गलत पासवर्ड (Wrong PIN)"

/-- Success reason string (identical in both variants). -/
def AUTH_OK_MSG : String := "✅ प्रमाणीकरण सफल (Authentication successful)"

/-- Voice-mismatch reason string of the legacy utils/auth.py variant. -/
def VOICE_MISMATCH_MSG : String := "❌ आवाज़ मेल नहीं खाती (Voice mismatch)"

/-- `authenticate_user` from utils/auth/__init__.py (lines 14–56) — the
variant the running program imports, since the `utils/auth` package
shadows the `utils/auth.py` module.  A voice mismatch only warns: a
correct PIN alone authorizes. -/
def authenticate_user (h : String → String) (storedHash : String)
    (env : VoiceEnv) (spoken_pin : String) (check_voice : Bool)
    (audio : Option (List ℤ)) : AuthResult :=
  let pin_ok := verify_pin h storedHash spoken_pin
  if pin_ok = false then
    { pin_ok := false, voice_ok := false, authorized := false,
      reason := WRONG_PIN_MSG }
  else
    let voice_ok :=
      if check_voice then
        match audio with
        | some a =>
          if a.length > 0 then verify_voice_from_audio env a
          else verify_voice env
        | none => verify_voice env
      else true
    { pin_ok := true, voice_ok := voice_ok, authorized := true,
      reason := AUTH_OK_MSG }

/-- `authenticate_user` from the legacy utils/auth.py (lines 171–206):
here a voice mismatch blocks authorization. -/
def authenticate_user_legacy (h : String → String) (storedHash : String)
    (env : VoiceEnv) (spoken_pin : String) (check_voice : Bool) :
    AuthResult :=
  let pin_ok := verify_pin h storedHash spoken_pin
  if pin_ok = false then
    { pin_ok := false, voice_ok := false, authorized := false,
      reason := WRONG_PIN_MSG }
  else if check_voice then
    let voice_ok := verify_voice env
    if voice_ok = false then
      { pin_ok := true, voice_ok := false, authorized := false,
        reason := VOICE_MISMATCH_MSG }
    else
      { pin_ok := true, voice_ok := true, authorized := true,
        reason := AUTH_OK_MSG }
  else
    { pin_ok := true, voice_ok := true, authorized := true,
      reason := AUTH_OK_MSG }

/-! ## core/state.py -/

/-- The session states (core/state.py). -/
inductive State where
  | SLEEPING
  | ACTIVE
  | AWAITING_PIN
  | RECORDING_NOTICE
deriving DecidableEq, Repr

/-! ## core/handlers.py — shared context and the PIN / alarm-set handlers -/

/-- `assistant_ctx` (core/handlers.py lines 43–48): the dict shared
between main and the handlers. -/
structure Ctx where
  pending_alarm_text : String
  pin_prompt_time : ℚ
  pending_notice_delay : Option ℚ
  pending_notice_label : String
deriving DecidableEq, Repr

/-- Timeout message of `handle_pin_input`. -/
def TIMEOUT_MSG : String := "समय समाप्त। अलार्म सेट नहीं हुआ।"

/-- Cancellation message of `handle_pin_input` (exit word heard). -/
def PIN_CANCEL_MSG : String := "ठीक है, अलार्म रद्द।"

/-- Spoken on successful authentication in `handle_pin_input`. -/
def AUTH_SUCCESS_SPOKEN : String := "प्रमाणीकरण सफल! अलार्म सेट हो रहा है।"

/-- Spoken after a failed authentication in `handle_pin_input`. -/
def ALARM_NOT_SET_MSG : String := "अलार्म सेट नहीं हुआ।"

/-- PIN prompt spoken by `_handle_alarm_set`. -/
def PIN_PROMPT_MSG : String :=
  "अलार्म सेट करने के लिए पासवर्ड बोलिए। कृपया अपना पिन बोलें।"

/-- The alarm keywords of `_handle_alarm_set` / `extract_alarm_intent`. -/
def ALARM_KEYWORDS : List String := ["अलार्म", "जगाना", "उठाना", "याद"]

/-- Result of one `handle_pin_input` step: next state, updated context,
spoken messages in order, and the text forwarded to the (downstream)
`extract_alarm_intent` call when authentication succeeded. -/
structure PinStepResult where
  next : State
  ctx : Ctx
  spoken : List String
  forwarded : Option String
deriving DecidableEq, Repr

/-- `handle_pin_input` (core/handlers.py lines 336–380).  `now` is the
`time.time()` reading of this call.  The downstream
`extract_alarm_intent(pending)` call of the success branch is recorded in
`forwarded` (its own behaviour is modelled separately). -/
def handle_pin_input (h : String → String) (storedHash : String)
    (env : VoiceEnv) (ctx : Ctx) (text : String) (now : ℚ)
    (audio : Option (List ℤ)) : PinStepResult :=
  if PIN_PROMPT_TIMEOUT < now - ctx.pin_prompt_time then
    { next := State.ACTIVE, ctx := ctx, spoken := [TIMEOUT_MSG],
      forwarded := none }
  else if pyContains text EXIT_WORD then
    { next := State.ACTIVE, ctx := ctx, spoken := [PIN_CANCEL_MSG],
      forwarded := none }
  else
    let auth := authenticate_user h storedHash env text true audio
    let pending := ctx.pending_alarm_text
    let ctx' := { ctx with pending_alarm_text := "" }
    if auth.authorized then
      { next := State.ACTIVE, ctx := ctx', spoken := [AUTH_SUCCESS_SPOKEN],
        forwarded := some pending }
    else
      { next := State.ACTIVE, ctx := ctx',
        spoken := [auth.reason, ALARM_NOT_SET_MSG], forwarded := none }

/-- `_handle_alarm_set` (core/handlers.py lines 137–150): when an alarm
keyword is present, store the utterance as the pending alarm text, record
the prompt start time and move to `AWAITING_PIN`. -/
def handleAlarmSet (ctx : Ctx) (text : String) (now : ℚ) :
    State × Ctx × List String :=
  if ALARM_KEYWORDS.any (fun kw => pyContains text kw) then
    (State.AWAITING_PIN,
     { ctx with pending_alarm_text := text, pin_prompt_time := now },
     [PIN_PROMPT_MSG])
  else (State.ACTIVE, ctx, [])

/-! ## core/recognizer.py — the ASR quality filter -/

/-- Average of the per-word confidences, each defaulting to `1.0` when
the word entry has no `"conf"` key (`w.get("conf", 1.0)`). -/
def avgConf (wordConfs : List (Option ℚ)) : ℚ :=
  (wordConfs.map (fun o => o.getD 1)).sum / (wordConfs.length : ℚ)

/-- `_is_meaningful` (core/recognizer.py lines 53–96), parametric in the
two configuration constants it reads.  `wordConfs` is the list of
optional `"conf"` fields of the parsed Vosk `"result"` list. -/
def isMeaningful (confThreshold : ℚ) (minWordLength : ℕ)
    (wordConfs : List (Option ℚ)) (text : String)
    (check_word_length : Bool) : Bool :=
  if wordConfs ≠ [] ∧ 0 < confThreshold ∧ avgConf wordConfs < confThreshold
  then false
  else if check_word_length = true ∧ 1 < minWordLength ∧
      pySplit text ≠ [] ∧
      (pySplit text).all (fun tok => tok.length < minWordLength)
  then false
  else true

/-- The `check_word_length` argument `callback` passes (core/recognizer.py
lines 139–140): the length gate is skipped exactly in `AWAITING_PIN`. -/
def checkWordLengthFlag (s : State) : Bool :=
  !(s == State.AWAITING_PIN)

/-! ## utils/timer_thread.py -/

/-- The module-level state of utils/timer_thread.py: whether the worker
thread is alive, and the `_start_time` / `_duration` pair it maintains
under `_lock`. -/
structure TimerState where
  threadAlive : Bool
  startTime : Option ℚ
  duration : Option ℚ
deriving DecidableEq, Repr

/-- `cancel_timer` (timer_thread.py lines 172–186).  When the worker is
alive, the cancel event is set and the join lets the worker run its
cancelled branch, which nulls `_start_time` / `_duration` and exits; when
no worker is alive nothing is touched and `False` is returned. -/
def cancel_timer (s : TimerState) : Bool × TimerState :=
  if s.threadAlive then
    (true, { threadAlive := false, startTime := none, duration := none })
  else (false, s)

/-- `get_remaining` (timer_thread.py lines 189–198) at monotonic time
`now`: `max(0.0, _duration - (now - _start_time))`, or `None` when no
timer state is recorded. -/
def get_remaining (s : TimerState) (now : ℚ) : Option ℚ :=
  match s.startTime, s.duration with
  | some st, some d => some (max 0 (d - (now - st)))
  | _, _ => none

/-! ## utils/notice_thread.py -/

/-- The module-level state of utils/notice_thread.py. -/
structure NoticeState where
  threadExists : Bool
  threadAlive : Bool
  eta : Option ℚ
  label : String
  file : Option String
deriving DecidableEq, Repr

/-- `cancel_notice` (notice_thread.py lines 193–204).  When the worker is
alive the cancel event and join run the worker's cancelled branch, which
clears `_notice_eta` / `_notice_file` / `_notice_label` and deletes the
temp file; otherwise nothing changes and `False` is returned. -/
def cancel_notice (s : NoticeState) : Bool × NoticeState :=
  if s.threadExists && s.threadAlive then
    (true,
     { s with
       threadAlive := false
       eta := none
       label := ""
       file := none })
  else (false, s)

/-- The dict returned by `get_notice_status`. -/
structure NoticeStatus where
  active : Bool
  remaining : Option ℚ
  label : String
deriving DecidableEq, Repr

/-- `get_notice_status` (notice_thread.py lines 207–226) at monotonic
time `now`. -/
def get_notice_status (s : NoticeState) (now : ℚ) : NoticeStatus :=
  match s.eta with
  | none => { active := false, remaining := none, label := "" }
  | some eta =>
    if s.threadExists && !s.threadAlive then
      { active := false, remaining := none, label := "" }
    else
      { active := true, remaining := some (max 0 (eta - now)),
        label := s.label }

/-! ## utils/alarm_thread.py -/

/-- Spoken by `cancel_alarm` — unconditionally. -/
def ALARM_CANCELLED_MSG : String := "अलार्म रद्द कर दिया गया।"

/-- Spoken when the alarm checker fires. -/
def ALARM_RING_MSG : String := "अलार्म बज रहा है। समय हो गया।"

/-- `set_alarm` (alarm_thread.py lines 66–77): store the time string and
speak the confirmation. -/
def set_alarm (t : String) (_alarmTime : Option String) :
    Option String × List String :=
  (some t, ["अलार्म " ++ t ++ " बजे के लिए सेट हो गया।"])

/-- `cancel_alarm` (alarm_thread.py lines 80–86): clears `_alarm_time`
and speaks the cancellation — with no condition and no return value. -/
def cancel_alarm (_alarmTime : Option String) : Option String × List String :=
  (none, [ALARM_CANCELLED_MSG])

/-- One iteration of the `_alarm_checker` loop body (alarm_thread.py
lines 34–52) given the current wall clock formatted as `HH:MM`; returns
the new `_alarm_time` and whether the alarm rang.  (`if target:` is
Python truthiness, so an empty stored string never fires.) -/
def alarmCheckStep (alarmTime : Option String) (now : String) :
    Option String × Bool :=
  match alarmTime with
  | some target =>
    if target ≠ "" ∧ now = target then (none, true)
    else (some target, false)
  | none => (none, false)

/-- The `_alarm_checker` loop run over a finite sequence of wall-clock
readings (one per 1-second poll): final `_alarm_time` and how many times
the alarm rang. -/
def runAlarmChecker : Option String → List String → Option String × ℕ
  | a, [] => (a, 0)
  | a, now :: rest =>
    let step := alarmCheckStep a now
    let tail := runAlarmChecker step.1 rest
    (tail.1, (if step.2 then 1 else 0) + tail.2)

/-! ## intents/remainder_intent.py — alarm time extraction tail -/

/-- The AM/PM marker `detect_period` returns. -/
inductive DayPeriod where
  | AM
  | PM
deriving DecidableEq, Repr

/-- The AM/PM correction of `extract_alarm_intent` (lines 93–96). -/
def applyPeriod (period : Option DayPeriod) (hour : ℕ) : ℕ :=
  match period with
  | some DayPeriod.PM => if hour < 12 then hour + 12 else hour
  | some DayPeriod.AM => if hour = 12 then 0 else hour
  | none => hour

/-- `hour = max(0, min(23, hour))` — hours coming out of `extract_time`
are non-negative (regex digits or word numbers), so `max 0` is identity
and the clamp is `min 23`. -/
def clampHour (h : ℕ) : ℕ := min 23 h

/-- `minute = max(0, min(59, minute))`. -/
def clampMinute (m : ℕ) : ℕ := min 59 m

/-- Python `f"{n:02d}"` for non-negative `n`: zero-pad to two digits. -/
def pad2 (n : ℕ) : String :=
  if n < 10 then "0" ++ toString n else toString n

/-- `f"{hour:02d}:{minute:02d}"`. -/
def formatHHMM (h m : ℕ) : String := pad2 h ++ ":" ++ pad2 m

/-- The alarm string `extract_alarm_intent` builds (lines 93–102) from
the `extract_time` results: AM/PM correction, clamping, formatting. -/
def alarmTimeString (hour minute : ℕ) (period : Option DayPeriod) : String :=
  formatHHMM (clampHour (applyPeriod period hour)) (clampMinute minute)

/-- Syntactic validity of a 24-hour `"HH:MM"` string: exactly five
characters `d d ':' d d` with the hour in 00–23 and the minute in
00–59. -/
def validHHMM (s : String) : Bool :=
  match s.toList with
  | [h1, h2, c, m1, m2] =>
    c = ':' && h1.isDigit && h2.isDigit && m1.isDigit && m2.isDigit &&
    decide ((h1.toNat - 48) * 10 + (h2.toNat - 48) ≤ 23) &&
    decide ((m1.toNat - 48) * 10 + (m2.toNat - 48) ≤ 59)
  | _ => false

/-! ## Supporting lemmas -/

lemma runAlarmChecker_none (l : List String) :
    runAlarmChecker none l = (none, 0) := by
  induction l with
  | nil => rfl
  | cons x xs ih => simp [runAlarmChecker, alarmCheckStep, ih]

lemma runAlarmChecker_le_one (a : Option String) (l : List String) :
    (runAlarmChecker a l).2 ≤ 1 := by
  induction l generalizing a with
  | nil => simp [runAlarmChecker]
  | cons x xs ih =>
    cases a with
    | none =>
      simp [runAlarmChecker, alarmCheckStep, runAlarmChecker_none]
    | some t =>
      by_cases h : t ≠ "" ∧ x = t
      · simp [runAlarmChecker, alarmCheckStep, h, runAlarmChecker_none]
      · simpa [runAlarmChecker, alarmCheckStep, h] using ih (some t)

lemma dotQ_self_nonneg (a : List ℚ) : 0 ≤ dotQ a a := by
  induction a with
  | nil => simp [dotQ]
  | cons x xs ih =>
    have hx : 0 ≤ x * x := mul_self_nonneg x
    have hr : 0 ≤ dotQ xs xs := ih
    simp only [dotQ, List.zipWith_cons_cons, List.sum_cons]
    exact add_nonneg hx (by simpa [dotQ] using hr)

/-- `cosSimGe` decides exactly the comparison the source makes:
`_cosine_similarity(a, b) >= t`, where the similarity is `0.0` when a
norm vanishes and `dot(a,b) / (‖a‖ * ‖b‖)` (with real square-root
norms) otherwise. -/
lemma cosSimGe_iff_real (a b : List ℚ) (t : ℚ) :
    cosSimGe a b t = true ↔
      (t : ℝ) ≤
        (if dotQ a a = 0 ∨ dotQ b b = 0 then (0 : ℝ)
         else ((dotQ a b : ℚ) : ℝ) /
           (Real.sqrt ((dotQ a a : ℚ) : ℝ) *
            Real.sqrt ((dotQ b b : ℚ) : ℝ))) := by
  by_cases h0 : dotQ a a = 0 ∨ dotQ b b = 0
  · simp only [cosSimGe, if_pos h0, ge_iff_le, decide_eq_true_eq]
    constructor
    · intro h; exact_mod_cast h
    · intro h; exact_mod_cast h
  · have hA : (0 : ℚ) < dotQ a a :=
      (dotQ_self_nonneg a).lt_of_ne (fun he => h0 (Or.inl he.symm))
    have hB : (0 : ℚ) < dotQ b b :=
      (dotQ_self_nonneg b).lt_of_ne (fun he => h0 (Or.inr he.symm))
    have hAr : (0 : ℝ) < ((dotQ a a : ℚ) : ℝ) := by exact_mod_cast hA
    have hBr : (0 : ℝ) < ((dotQ b b : ℚ) : ℝ) := by exact_mod_cast hB
    have hN : (0 : ℝ) < Real.sqrt ((dotQ a a : ℚ) : ℝ) *
        Real.sqrt ((dotQ b b : ℚ) : ℝ) :=
      mul_pos (Real.sqrt_pos.mpr hAr) (Real.sqrt_pos.mpr hBr)
    have hN2 : (Real.sqrt ((dotQ a a : ℚ) : ℝ) *
        Real.sqrt ((dotQ b b : ℚ) : ℝ)) ^ 2 =
        ((dotQ a a : ℚ) : ℝ) * ((dotQ b b : ℚ) : ℝ) := by
      rw [mul_pow, Real.sq_sqrt hAr.le, Real.sq_sqrt hBr.le]
    rw [if_neg h0, le_div_iff₀ hN]
    by_cases ht : t ≤ 0
    · have htr : (t : ℝ) ≤ 0 := by exact_mod_cast ht
      by_cases hd : (0 : ℚ) ≤ dotQ a b
      · have hdr : (0 : ℝ) ≤ ((dotQ a b : ℚ) : ℝ) := by exact_mod_cast hd
        simp only [cosSimGe, if_neg h0, if_pos ht, if_pos hd, true_iff]
        nlinarith
      · push_neg at hd
        have hdr : ((dotQ a b : ℚ) : ℝ) < 0 := by exact_mod_cast hd
        simp only [cosSimGe, if_neg h0, if_pos ht, if_neg (not_le.mpr hd),
          decide_eq_true_eq]
        have hcast : (dotQ a b ^ 2 ≤ t ^ 2 * (dotQ a a * dotQ b b)) ↔
            ((dotQ a b : ℚ) : ℝ) ^ 2 ≤ (t : ℝ) ^ 2 *
              (((dotQ a a : ℚ) : ℝ) * ((dotQ b b : ℚ) : ℝ)) := by
          constructor
          · intro h; exact_mod_cast h
          · intro h; exact_mod_cast h
        rw [hcast, ← hN2, ← mul_pow]
        have hTN : (t : ℝ) * (Real.sqrt ((dotQ a a : ℚ) : ℝ) *
            Real.sqrt ((dotQ b b : ℚ) : ℝ)) ≤ 0 := by nlinarith
        constructor
        · intro hsq
          have hsq' : (-((dotQ a b : ℚ) : ℝ)) ^ 2 ≤
              (-((t : ℝ) * (Real.sqrt ((dotQ a a : ℚ) : ℝ) *
                Real.sqrt ((dotQ b b : ℚ) : ℝ)))) ^ 2 := by
            simpa [neg_sq] using hsq
          have := (pow_le_pow_iff_left₀ (by linarith) (by linarith)
            (two_ne_zero)).mp hsq'
          linarith
        · intro hle
          have h1 : -((dotQ a b : ℚ) : ℝ) ≤ -((t : ℝ) *
              (Real.sqrt ((dotQ a a : ℚ) : ℝ) *
               Real.sqrt ((dotQ b b : ℚ) : ℝ))) := by linarith
          have := (pow_le_pow_iff_left₀ (by linarith) (by linarith)
            (two_ne_zero)).mpr h1
          simpa [neg_sq] using this
    · push_neg at ht
      have htr : (0 : ℝ) < (t : ℝ) := by exact_mod_cast ht
      simp only [cosSimGe, if_neg h0, if_neg (not_le.mpr ht),
        decide_eq_true_eq]
      have hTN : (0 : ℝ) < (t : ℝ) * (Real.sqrt ((dotQ a a : ℚ) : ℝ) *
          Real.sqrt ((dotQ b b : ℚ) : ℝ)) := mul_pos htr hN
      constructor
      · rintro ⟨hd0, hsq⟩
        have hdr : (0 : ℝ) ≤ ((dotQ a b : ℚ) : ℝ) := by exact_mod_cast hd0
        have hsqr : (t : ℝ) ^ 2 * (((dotQ a a : ℚ) : ℝ) *
            ((dotQ b b : ℚ) : ℝ)) ≤ ((dotQ a b : ℚ) : ℝ) ^ 2 := by
          exact_mod_cast hsq
        rw [← hN2, ← mul_pow] at hsqr
        exact (pow_le_pow_iff_left₀ hTN.le hdr two_ne_zero).mp hsqr
      · intro hle
        have hdr : (0 : ℝ) ≤ ((dotQ a b : ℚ) : ℝ) := le_trans hTN.le hle
        refine ⟨by exact_mod_cast hdr, ?_⟩
        have hsq : ((t : ℝ) * (Real.sqrt ((dotQ a a : ℚ) : ℝ) *
            Real.sqrt ((dotQ b b : ℚ) : ℝ))) ^ 2 ≤
            ((dotQ a b : ℚ) : ℝ) ^ 2 :=
          (pow_le_pow_iff_left₀ hTN.le hdr two_ne_zero).mpr hle
        rw [mul_pow, hN2] at hsq
        exact_mod_cast hsq

lemma validHHMM_formatHHMM (h m : ℕ) (hh : h ≤ 23) (hm : m ≤ 59) :
    validHHMM (formatHHMM h m) = true := by
  have key : ∀ h1 < 24, ∀ m1 < 60, validHHMM (formatHHMM h1 m1) = true := by
    decide
  exact key h (by omega) m (by omega)

/-! ## The claims -/

/-- C7: after a set alarm fires on a wall-clock HH:MM match the stored
alarm time is cleared, so a single `set_alarm` call rings at most once
over any sequence of 1-second polls and never re-fires at the same HH:MM
later. -/
theorem alarm_fires_at_most_once (t : String) (clocks : List String) :
    (runAlarmChecker (some t) clocks).2 ≤ 1 ∧
    (∀ a now, (alarmCheckStep a now).2 = true →
      (alarmCheckStep a now).1 = none) := by
  refine ⟨runAlarmChecker_le_one _ _, ?_⟩
  intro a now hr
  cases a with
  | none => simp [alarmCheckStep] at hr
  | some tgt =>
    by_cases h : tgt ≠ "" ∧ now = tgt
    · simp [alarmCheckStep, h]
    · simp [alarmCheckStep, h] at hr

/-- Witness for C7 on a concrete trace: the alarm set for 07:00 rings at
most once over four polls of which three read 07:00, and the firing step
clears the stored time. -/
theorem alarm_fires_at_most_once_witness :
    (runAlarmChecker (some "07:00")
      ["06:59", "07:00", "07:00", "07:00"]).2 ≤ 1 ∧
    (alarmCheckStep (some "07:00") "07:00").1 = none :=
  ⟨(alarm_fires_at_most_once "07:00" ["06:59", "07:00", "07:00", "07:00"]).1,
   (alarm_fires_at_most_once "07:00" []).2 (some "07:00") "07:00" (by decide)⟩

/-- C10: every alarm string the alarm-set flow stores — built by
`extract_alarm_intent` from any extracted hour/minute and AM/PM marker
and handed to `set_alarm` — is a syntactically valid zero-padded 24-hour
`HH:MM` string with hour in 00–23 and minute in 00–59. -/
theorem alarm_string_always_valid (hour minute : ℕ)
    (period : Option DayPeriod) (stored : Option String) :
    validHHMM (alarmTimeString hour minute period) = true ∧
    (set_alarm (alarmTimeString hour minute period) stored).1 =
      some (alarmTimeString hour minute period) := by
  refine ⟨?_, rfl⟩
  exact validHHMM_formatHHMM _ _ (Nat.min_le_left 23 _) (Nat.min_le_left 59 _)

/-- C9: a spoken text in which no token maps to a digit can never
authenticate: `verify_pin` returns `false` before any hash comparison,
whatever the stored PIN hash — including the hash of the empty string. -/
theorem no_digit_text_never_authenticates (h : String → String)
    (st : String) (text : String) (hnd : pinDigits text = "") :
    verify_pin h st text = false := by
  simp [verify_pin, hnd]

/-- Witness for C9: an utterance with no digit token fails against the
hash of the empty string. -/
theorem no_digit_text_never_authenticates_witness :
    verify_pin id (id "") "नमस्ते assistant" = false :=
  no_digit_text_never_authenticates id (id "") "नमस्ते assistant" (by decide)

/-- C2: `verify_pin` tokenizes, maps digit words / literal numerals,
skips unmappable tokens, concatenates and compares the hash of the
result with the stored hash; against a stored hash of the PIN `"1234"`
(and a digest with no collision at `"1234"`) it accepts exactly the
texts whose digit sequence is `"1234"`. -/
theorem verify_pin_spec (h : String → String) (text : String)
    (hinj : ∀ s, h s = h "1234" → s = "1234") :
    (∀ st, verify_pin h st text =
      (decide (pinDigits text ≠ "") && decide (h (pinDigits text) = st))) ∧
    (verify_pin h (AUTH_PIN_HASH h) text = true ↔ pinDigits text = "1234") := by
  constructor
  · intro st
    by_cases hd : pinDigits text = "" <;> simp [verify_pin, hd]
  · by_cases hd : pinDigits text = ""
    · simp [verify_pin, hd]
    · simp [verify_pin, AUTH_PIN_HASH, hd]
      constructor
      · exact fun hc => hinj _ hc
      · intro hc; rw [hc]

/-- Witness for C2: the Devanagari digit words for 1-2-3-4 authenticate
against the stored hash of `"1234"` (digest instantiated with an
injective function). -/
theorem verify_pin_spec_witness :
    verify_pin id (AUTH_PIN_HASH id) "एक दो तीन चार" = true :=
  (verify_pin_spec id "एक दो तीन चार" (fun _ hs => hs)).2.mpr (by decide)

/-- C1 fails on the code: in the `utils/auth` package variant — the one
the program imports — a correct PIN with voice verification requested
and failing still authorizes, contradicting
`authorized = pinOk && (voiceOk || !verifyVoice)`. -/
theorem auth_formula_counterexample :
    (authenticate_user id "1234" ⟨true, some [1], fun _ => [0], [5]⟩ "1234"
      true none).authorized = true ∧
    ((authenticate_user id "1234" ⟨true, some [1], fun _ => [0], [5]⟩ "1234"
      true none).pin_ok &&
     ((authenticate_user id "1234" ⟨true, some [1], fun _ => [0], [5]⟩ "1234"
      true none).voice_ok || !true)) = false := by
  have hp : verify_pin id "1234" "1234" = true := by decide
  have hcos : cosSimGe [1] [0] VOICE_AUTH_THRESHOLD = false := by
    norm_num [cosSimGe, dotQ, VOICE_AUTH_THRESHOLD]
  have hvv : verify_voice ⟨true, some [1], fun _ => [0], [5]⟩ = false := by
    simp [verify_voice, extractMfcc, hcos]
  constructor
  · simp [authenticate_user, hp]
  · simp [authenticate_user, hp, hvv]

/-- C1 amended: the wrong-PIN short-circuit holds in both variants; the
claimed combination `authorized = pinOk && (voiceOk || !verifyVoice)`
holds for the legacy `utils/auth.py` variant, while the `utils/auth`
package variant used at runtime authorizes on the PIN alone
(`authorized = pinOk`). -/
theorem auth_gate_combine (h : String → String) (st : String)
    (env : VoiceEnv) (text : String) (cv : Bool) (audio : Option (List ℤ)) :
    ((authenticate_user h st env text cv audio).authorized =
      (authenticate_user h st env text cv audio).pin_ok) ∧
    ((authenticate_user_legacy h st env text cv).authorized =
      ((authenticate_user_legacy h st env text cv).pin_ok &&
       ((authenticate_user_legacy h st env text cv).voice_ok || !cv))) ∧
    (verify_pin h st text = false →
      authenticate_user h st env text cv audio =
        { pin_ok := false, voice_ok := false, authorized := false,
          reason := WRONG_PIN_MSG } ∧
      authenticate_user_legacy h st env text cv =
        { pin_ok := false, voice_ok := false, authorized := false,
          reason := WRONG_PIN_MSG }) := by
  refine ⟨?_, ?_, ?_⟩
  · by_cases hp : verify_pin h st text <;> simp [authenticate_user, hp]
  · by_cases hp : verify_pin h st text
    · cases cv with
      | false => simp [authenticate_user_legacy, hp]
      | true =>
        by_cases hv : verify_voice env <;>
          simp [authenticate_user_legacy, hp, hv]
    · simp [authenticate_user_legacy, hp]
  · intro hp
    exact ⟨by simp [authenticate_user, hp], by simp [authenticate_user_legacy, hp]⟩

/-- Witness for C1 (amended): the wrong-PIN short-circuit applied at a
concrete failing input. -/
theorem auth_gate_combine_witness :
    authenticate_user id "1234" ⟨false, none, fun _ => [], []⟩ "" true none =
      { pin_ok := false, voice_ok := false, authorized := false,
        reason := WRONG_PIN_MSG } :=
  ((auth_gate_combine id "1234" ⟨false, none, fun _ => [], []⟩ "" true
      none).2.2 (by decide)).1

/-- C4 fails on the code: with voice verification enabled, PIN passed and
*no* captured audio supplied, the package `authenticate_user` does not
fail open — it falls back to a fresh recording (`verify_voice`) and can
report a voice mismatch. -/
theorem voice_fail_open_counterexample :
    (authenticate_user id "1234" ⟨true, some [1], fun _ => [0], [5]⟩
      "एक दो तीन चार" true none).pin_ok = true ∧
    (authenticate_user id "1234" ⟨true, some [1], fun _ => [0], [5]⟩
      "एक दो तीन चार" true none).voice_ok = false := by
  have hp : verify_pin id "1234" "एक दो तीन चार" = true := by decide
  have hcos : cosSimGe [1] [0] VOICE_AUTH_THRESHOLD = false := by
    norm_num [cosSimGe, dotQ, VOICE_AUTH_THRESHOLD]
  have hvv : verify_voice ⟨true, some [1], fun _ => [0], [5]⟩ = false := by
    simp [verify_voice, extractMfcc, hcos]
  exact ⟨by simp [authenticate_user, hp], by simp [authenticate_user, hp, hvv]⟩

/-- C4 amended: `verify_voice_from_audio` fails open when the MFCC
library is unavailable, no enrolled profile exists, or the audio is
shorter than the minimum; otherwise it is exactly the cosine-similarity
threshold test.  When no (or empty) captured audio is supplied, the
package `authenticate_user` instead falls back to a fresh
`verify_voice` recording (which fails open only on a missing library or
profile). -/
theorem voice_fail_open_cases (env : VoiceEnv) (a : List ℤ)
    (h : String → String) (st : String) (text : String) :
    (env.mfccAvailable = false → verify_voice_from_audio env a = true) ∧
    (env.profile = none → verify_voice_from_audio env a = true) ∧
    (a.length < MIN_VOICE_SAMPLES → verify_voice_from_audio env a = true) ∧
    (∀ p, env.mfccAvailable = true → env.profile = some p →
      ¬(a.length < MIN_VOICE_SAMPLES) →
      verify_voice_from_audio env a =
        cosSimGe p (env.extract a) VOICE_AUTH_THRESHOLD) ∧
    (verify_pin h st text = true →
      ((authenticate_user h st env text true none).voice_ok =
        verify_voice env) ∧
      ((authenticate_user h st env text true (some [])).voice_ok =
        verify_voice env) ∧
      (a ≠ [] → (authenticate_user h st env text true (some a)).voice_ok =
        verify_voice_from_audio env a)) := by
  refine ⟨?_, ?_, ?_, ?_, ?_⟩
  · intro hm; simp [verify_voice_from_audio, hm]
  · intro hpr
    by_cases hm : env.mfccAvailable <;>
      simp [verify_voice_from_audio, hm, hpr]
  · intro hlen
    by_cases hm : env.mfccAvailable
    · cases hpr : env.profile <;>
        simp [verify_voice_from_audio, hm, hpr, hlen]
    · simp [verify_voice_from_audio, hm]
  · intro p hm hpr hlen
    simp [verify_voice_from_audio, extractMfcc, hm, hpr, hlen]
  · intro hp
    refine ⟨by simp [authenticate_user, hp], by simp [authenticate_user, hp], ?_⟩
    intro ha
    have : a.length > 0 := by
      cases a with
      | nil => exact absurd rfl ha
      | cons x xs => simp
    simp [authenticate_user, hp, this]

/-- Witness for C4 (amended): each fail-open case and the fallback
evaluated at concrete inputs. -/
theorem voice_fail_open_cases_witness :
    verify_voice_from_audio ⟨false, some [1], fun _ => [1], []⟩ [] = true ∧
    verify_voice_from_audio ⟨true, none, fun _ => [1], []⟩ [] = true ∧
    verify_voice_from_audio ⟨true, some [1], fun _ => [1], []⟩ [3] = true ∧
    verify_voice_from_audio ⟨true, some [1], fun _ => [1], []⟩
        (List.replicate 8000 0) =
      cosSimGe [1] ((fun _ => [1]) (List.replicate 8000 (0 : ℤ)))
        VOICE_AUTH_THRESHOLD ∧
    (authenticate_user id "1234" ⟨true, some [1], fun _ => [1], []⟩ "1234"
        true (some [7])).voice_ok =
      verify_voice_from_audio ⟨true, some [1], fun _ => [1], []⟩ [7] :=
  ⟨(voice_fail_open_cases ⟨false, some [1], fun _ => [1], []⟩ [] id "1234"
      "1234").1 rfl,
   (voice_fail_open_cases ⟨true, none, fun _ => [1], []⟩ [] id "1234"
      "1234").2.1 rfl,
   (voice_fail_open_cases ⟨true, some [1], fun _ => [1], []⟩ [3] id "1234"
      "1234").2.2.1 (by decide),
   (voice_fail_open_cases ⟨true, some [1], fun _ => [1], []⟩
      (List.replicate 8000 0) id "1234" "1234").2.2.2.1 [1] rfl rfl
      (by simp only [List.length_replicate, MIN_VOICE_SAMPLES]; decide),
   ((voice_fail_open_cases ⟨true, some [1], fun _ => [1], []⟩ [7] id "1234"
      "1234").2.2.2.2 (by decide)).2.2 (by decide)⟩

/-- C5 fails on the code for the Alarm kind: `cancel_alarm` with no
alarm set returns no boolean at all and still has an effect — it speaks
the cancellation message. -/
theorem cancel_alarm_counterexample :
    (cancel_alarm none).2 = [ALARM_CANCELLED_MSG] ∧
    (cancel_alarm none).2 ≠ ([] : List String) := by
  decide

/-- C5 amended: for the Timer and Notice kinds, `cancel` with no active
worker returns `false` and leaves the state unchanged, and a second
consecutive `cancel` returns `false` with no effect; the Alarm kind's
`cancel_alarm` instead returns no boolean and unconditionally clears the
stored time and speaks a cancellation message, even when no alarm is
set. -/
theorem cancel_semantics (ts : TimerState) (ns : NoticeState)
    (a : Option String) :
    (ts.threadAlive = false → cancel_timer ts = (false, ts)) ∧
    cancel_timer (cancel_timer ts).2 = (false, (cancel_timer ts).2) ∧
    ((ns.threadExists && ns.threadAlive) = false →
      cancel_notice ns = (false, ns)) ∧
    cancel_notice (cancel_notice ns).2 = (false, (cancel_notice ns).2) ∧
    cancel_alarm a = (none, [ALARM_CANCELLED_MSG]) := by
  refine ⟨?_, ?_, ?_, ?_, rfl⟩
  · intro h; simp [cancel_timer, h]
  · by_cases h : ts.threadAlive <;> simp [cancel_timer, h]
  · intro h; simp [cancel_notice, h]
  · by_cases hx : ns.threadExists = true ∧ ns.threadAlive = true
    · simp [cancel_notice, hx]
    · simp [cancel_notice, hx]

/-- Witness for C5 (amended): cancel-of-nothing at concrete inactive
states, and the alarm cancel's unconditional behaviour. -/
theorem cancel_semantics_witness :
    cancel_timer ⟨false, none, none⟩ = (false, ⟨false, none, none⟩) ∧
    cancel_notice ⟨false, false, none, "", none⟩ =
      (false, ⟨false, false, none, "", none⟩) ∧
    cancel_alarm none = (none, [ALARM_CANCELLED_MSG]) :=
  ⟨(cancel_semantics ⟨false, none, none⟩ ⟨false, false, none, "", none⟩
      none).1 rfl,
   (cancel_semantics ⟨false, none, none⟩ ⟨false, false, none, "", none⟩
      none).2.2.1 rfl,
   (cancel_semantics ⟨false, none, none⟩ ⟨false, false, none, "", none⟩
      none).2.2.2.2⟩

/-- C8: for Timer and Notice, two status queries against the same
recorded state at non-decreasing monotonic clock readings return
remaining times that are non-negative and non-increasing. -/
theorem status_monotone_nonneg (ts : TimerState) (ns : NoticeState)
    (now1 now2 : ℚ) (h12 : now1 ≤ now2) :
    (∀ r1 r2, get_remaining ts now1 = some r1 →
      get_remaining ts now2 = some r2 → 0 ≤ r1 ∧ 0 ≤ r2 ∧ r2 ≤ r1) ∧
    (∀ r1 r2, (get_notice_status ns now1).remaining = some r1 →
      (get_notice_status ns now2).remaining = some r2 →
      0 ≤ r1 ∧ 0 ≤ r2 ∧ r2 ≤ r1) := by
  constructor
  · intro r1 r2 h1 h2
    cases hst : ts.startTime with
    | none => simp [get_remaining, hst] at h1
    | some st =>
      cases hd : ts.duration with
      | none => simp [get_remaining, hst, hd] at h1
      | some d =>
        simp [get_remaining, hst, hd] at h1 h2
        subst h1; subst h2
        exact ⟨le_max_left _ _, le_max_left _ _,
          max_le_max le_rfl (by linarith)⟩
  · intro r1 r2 h1 h2
    cases he : ns.eta with
    | none => simp [get_notice_status, he] at h1
    | some eta =>
      by_cases hdead : ns.threadExists && !ns.threadAlive
      · simp [get_notice_status, he, hdead] at h1
      · simp [get_notice_status, he, hdead] at h1 h2
        subst h1; subst h2
        exact ⟨le_max_left _ _, le_max_left _ _,
          max_le_max le_rfl (by linarith)⟩

/-- Witness for C8: a 10-second timer started at monotonic 0 queried at
3 then 5, and a notice due at monotonic 15 queried at the same
instants. -/
theorem status_monotone_nonneg_witness :
    (0 ≤ (7 : ℚ) ∧ 0 ≤ (5 : ℚ) ∧ (5 : ℚ) ≤ 7) ∧
    (0 ≤ (12 : ℚ) ∧ 0 ≤ (10 : ℚ) ∧ (10 : ℚ) ≤ 12) :=
  ⟨(status_monotone_nonneg ⟨true, some 0, some 10⟩
      ⟨true, true, some 15, "x", none⟩ 3 5 (by norm_num)).1 7 5
      (by norm_num [get_remaining]) (by norm_num [get_remaining]),
   (status_monotone_nonneg ⟨true, some 0, some 10⟩
      ⟨true, true, some 15, "x", none⟩ 3 5 (by norm_num)).2 12 10
      (by norm_num [get_notice_status]) (by norm_num [get_notice_status])⟩

/-- C6: the quality filter accepts an utterance (with at least one
token) unless the confidence gate rejects it — confidences present,
threshold positive, mean below threshold — or the length gate is on and
every token is shorter than the minimum; and the callback disables the
length gate exactly in `AWAITING_PIN`. -/
theorem quality_filter_spec (thr : ℚ) (minLen : ℕ)
    (confs : List (Option ℚ)) (text : String) (cwl : Bool)
    (htok : pySplit text ≠ []) :
    (isMeaningful thr minLen confs text cwl = true ↔
      (¬(confs ≠ [] ∧ 0 < thr ∧ avgConf confs < thr) ∧
       ¬((cwl = true ∧ 1 < minLen) ∧
         ∀ tok ∈ pySplit text, tok.length < minLen))) ∧
    (∀ s : State, checkWordLengthFlag s = false ↔ s = State.AWAITING_PIN) := by
  constructor
  · have hall : (((pySplit text).all fun tok =>
        decide (tok.length < minLen)) = true) ↔
        ∀ tok ∈ pySplit text, tok.length < minLen := by simp
    unfold isMeaningful
    split_ifs with h1 h2
    · simp only [Bool.false_eq_true, false_iff]
      intro hc
      exact hc.1 h1
    · simp only [Bool.false_eq_true, false_iff]
      intro hc
      exact hc.2 ⟨⟨h2.1, h2.2.1⟩, hall.mp h2.2.2.2⟩
    · simp only [true_iff]
      exact ⟨h1, fun hb => h2 ⟨hb.1.1, hb.1.2, htok, hall.mpr hb.2⟩⟩
  · intro s
    cases s <;> simp [checkWordLengthFlag]

/-- Witness for C6: a clean two-word utterance with no confidence data
passes the filter with the length gate on. -/
theorem quality_filter_spec_witness :
    isMeaningful (65 / 100) 3 [] "नमस्ते जी" true = true :=
  (quality_filter_spec (65 / 100) 3 [] "नमस्ते जी" true (by decide)).1.mpr
    ⟨by simp, by decide⟩

/-- C3 fails on the code: processing an utterance in `AwaitingPin` after
the prompt timeout speaks the timeout message and returns to `Active`
but does **not** clear the stored pending alarm text. -/
theorem pin_timeout_counterexample :
    (handle_pin_input id "1234" ⟨false, none, fun _ => [], []⟩
      ⟨"अलार्म सात बजे", 0, none, ""⟩ "कुछ" 20 none).next = State.ACTIVE ∧
    (handle_pin_input id "1234" ⟨false, none, fun _ => [], []⟩
      ⟨"अलार्म सात बजे", 0, none, ""⟩ "कुछ" 20 none).spoken = [TIMEOUT_MSG] ∧
    (handle_pin_input id "1234" ⟨false, none, fun _ => [], []⟩
      ⟨"अलार्म सात बजे", 0, none, ""⟩ "कुछ" 20 none).ctx.pending_alarm_text =
      "अलार्म सात बजे" := by
  have ht : PIN_PROMPT_TIMEOUT < (20 : ℚ) := by
    norm_num [PIN_PROMPT_TIMEOUT]
  refine ⟨?_, ?_, ?_⟩ <;> simp [handle_pin_input, ht]

/-- C3 amended: on timeout or on the exit phrase, `handle_pin_input`
speaks the corresponding message and returns to `Active` while leaving
the pending alarm text unchanged (it is not cleared); the stale text
still cannot be consumed by a later PIN attempt, because every
transition into `AwaitingPin` (`_handle_alarm_set`) overwrites it with
the new utterance. -/
theorem pin_timeout_exit_behaviour (h : String → String) (st : String)
    (env : VoiceEnv) (ctx : Ctx) (text : String) (now : ℚ)
    (audio : Option (List ℤ)) :
    (PIN_PROMPT_TIMEOUT < now - ctx.pin_prompt_time →
      handle_pin_input h st env ctx text now audio =
        { next := State.ACTIVE, ctx := ctx, spoken := [TIMEOUT_MSG],
          forwarded := none }) ∧
    (¬(PIN_PROMPT_TIMEOUT < now - ctx.pin_prompt_time) →
      pyContains text EXIT_WORD = true →
      handle_pin_input h st env ctx text now audio =
        { next := State.ACTIVE, ctx := ctx, spoken := [PIN_CANCEL_MSG],
          forwarded := none }) ∧
    (∀ ctx2 text2 now2, (handleAlarmSet ctx2 text2 now2).1 =
        State.AWAITING_PIN →
      (handleAlarmSet ctx2 text2 now2).2.1.pending_alarm_text = text2) := by
  refine ⟨?_, ?_, ?_⟩
  · intro ht; simp [handle_pin_input, ht]
  · intro ht hx; simp [handle_pin_input, ht, hx]
  · intro ctx2 text2 now2 hs
    by_cases hk : ALARM_KEYWORDS.any (fun kw => pyContains text2 kw)
    · simp [handleAlarmSet, hk]
    · simp [handleAlarmSet, hk] at hs

/-- Witness for C3 (amended): timeout at 20 s, exit phrase inside the
window, and an alarm-set utterance overwriting the pending text. -/
theorem pin_timeout_exit_behaviour_witness :
    (handle_pin_input id "1234" ⟨false, none, fun _ => [], []⟩
      ⟨"पुराना", 0, none, ""⟩ "कुछ" 20 none =
      { next := State.ACTIVE, ctx := ⟨"पुराना", 0, none, ""⟩,
        spoken := [TIMEOUT_MSG], forwarded := none }) ∧
    (handle_pin_input id "1234" ⟨false, none, fun _ => [], []⟩
      ⟨"पुराना", 0, none, ""⟩ "धन्यवाद" 5 none =
      { next := State.ACTIVE, ctx := ⟨"पुराना", 0, none, ""⟩,
        spoken := [PIN_CANCEL_MSG], forwarded := none }) ∧
    (handleAlarmSet ⟨"पुराना", 0, none, ""⟩ "अलार्म नौ बजे" 30).2.1.pending_alarm_text =
      "अलार्म नौ बजे" :=
  ⟨(pin_timeout_exit_behaviour id "1234" ⟨false, none, fun _ => [], []⟩
      ⟨"पुराना", 0, none, ""⟩ "कुछ" 20 none).1
      (by norm_num [PIN_PROMPT_TIMEOUT]),
   (pin_timeout_exit_behaviour id "1234" ⟨false, none, fun _ => [], []⟩
      ⟨"पुराना", 0, none, ""⟩ "धन्यवाद" 5 none).2.1
      (by norm_num [PIN_PROMPT_TIMEOUT]) (by decide),
   (pin_timeout_exit_behaviour id "1234" ⟨false, none, fun _ => [], []⟩
      ⟨"पुराना", 0, none, ""⟩ "धन्यवाद" 5 none).2.2
      ⟨"पुराना", 0, none, ""⟩ "अलार्म नौ बजे" 30 (by decide)⟩

end VoiceAssistant
